import Mathlib

/-! Verification of the shapeshiftio HTTP client
(src/shapeshiftio/shapeshiftio.py).

The client is embedded shallowly. The network transport and the JSON decoder
are an oracle (`World`); each operation is a pure function returning
everything observable about the call: the outbound request it issued, the
ordered event trace, the state of the optional url store after the call, and
the JSON value returned or the failure raised. -/

/-- JSON values, the result type of json.loads. -/
inductive Json where
  | null : Json
  | bool : Bool → Json
  | str : String → Json
  | num : Int → Json
  | arr : List Json → Json
  | obj : List (String × Json) → Json

/-- HTTP verb of a request. -/
inductive Verb where
  | GET : Verb
  | POST : Verb
deriving DecidableEq

/-- An outbound HTTP request. GET requests carry no body; POST requests carry
the urlencoded form data as body. -/
structure Request where
  verb : Verb
  url : String
  body : Option String
deriving DecidableEq

/-- What the remote end does with one request: the connection fails or times
out (urlopen raises URLError), or the service answers with a status code and
a body. -/
inductive ServiceBehavior where
  | unreachable : ServiceBehavior
  | respond : Nat → String → ServiceBehavior

/-- The outside world a call runs against: the transport and service
(urlopen), and the JSON decoder (json.loads; `none` models a body on which
the decoder raises). -/
structure World where
  service : Request → ServiceBehavior
  decode : String → Option Json

/-- A failure raised out of a call: `network` is URLError
(connection failure or timeout), `http st` is HTTPError for a status outside
200-299, `jsonDecode` is the json.loads decoding error. -/
inductive Failure where
  | network : Failure
  | http : Nat → Failure
  | jsonDecode : Failure
deriving DecidableEq

/-- The optional url_store argument: a caller-owned object with a Python
truthiness and a url attribute. -/
structure UrlStore where
  truthy : Bool
  url : Option String
deriving DecidableEq

/-- Observable events of one call, in program order: an assignment
url_store.url = url, and the issuing of the HTTP request. -/
inductive Event where
  | sinkWrite : String → Event
  | httpIssue : Request → Event
deriving DecidableEq

/-- Everything observable about one client call: the request issued, the
event trace, the url store after the call, and the value returned or the
failure raised. -/
structure CallResult where
  request : Request
  trace : List Event
  store : Option UrlStore
  result : Except Failure Json

/-- Source line 22: the base of every constructed URL. -/
def shapeshift_url_base : String := "https://shapeshift.io"

/-- Upper-case hexadecimal digit, as urllib percent-encoding produces. -/
def hexUpper (n : Nat) : Char :=
  if n < 10 then Char.ofNat (48 + n) else Char.ofNat (55 + n)

/-- Percent-encoding of one byte as a three-character string. -/
def percentEncodeByte (b : Nat) : String :=
  String.mk ['%', hexUpper (b / 16 % 16), hexUpper (b % 16)]

/-- UTF-8 bytes of a character, as Python encodes a str before quoting. -/
def utf8Bytes (c : Char) : List Nat :=
  let n := c.toNat
  if n < 128 then [n]
  else if n < 2048 then [192 + n / 64, 128 + n % 64]
  else if n < 65536 then [224 + n / 4096, 128 + n / 64 % 64, 128 + n % 64]
  else [240 + n / 262144, 128 + n / 4096 % 64, 128 + n / 64 % 64, 128 + n % 64]

/-- Characters the urllib quoting leaves as-is: ASCII letters, digits, and
underscore, dot, dash, tilde. -/
def quote_safe (c : Char) : Bool :=
  (65 ≤ c.toNat && c.toNat ≤ 90) || (97 ≤ c.toNat && c.toNat ≤ 122) ||
  (48 ≤ c.toNat && c.toNat ≤ 57) || c == '_' || c == '.' || c == '-' || c == '~'

/-- Model of quote_plus from urllib: spaces become plus signs, safe
characters pass through, every other character is percent-encoded byte by
byte. -/
def quote_plus (s : String) : String :=
  String.join (s.toList.map fun c =>
    if c == ' ' then "+"
    else if quote_safe c then String.singleton c
    else String.join ((utf8Bytes c).map percentEncodeByte))

/-- Model of urlencode from urllib: each form field becomes quoted key,
equals sign, quoted value; the fields are joined by ampersands in the order
supplied, nothing added and nothing dropped. -/
def urlencode (postdata : List (String × String)) : String :=
  String.intercalate "&" (postdata.map fun kv => quote_plus kv.1 ++ "=" ++ quote_plus kv.2)

/-- Model of urlopen, read and json.loads applied to one request: URLError
when the service is unreachable; HTTPError for a status outside 200-299;
otherwise the body is JSON-decoded, a decoding failure raising and a success
returning the decoded value unchanged. -/
def runHttp (w : World) (req : Request) : Except Failure Json :=
  match w.service req with
  | ServiceBehavior.unreachable => Except.error Failure.network
  | ServiceBehavior.respond status body =>
    if 200 ≤ status ∧ status < 300 then
      match w.decode body with
      | some j => Except.ok j
      | none => Except.error Failure.jsonDecode
    else Except.error (Failure.http status)

/-- Internal GET helper, source lines 25-28: issues exactly one GET request
on the given url and returns json.loads of the response body. Result: the
request, the singleton issue trace, and the outcome. -/
def _get_request (w : World) (url : String) : Request × List Event × Except Failure Json :=
  let req : Request := { verb := Verb.GET, url := url, body := none }
  (req, [Event.httpIssue req], runHttp w req)

/-- Internal POST helper, source lines 30-33: issues exactly one POST request
on the given url with urlencode of the postdata as body. -/
def _post_request (w : World) (url : String) (postdata : List (String × String)) :
    Request × List Event × Except Failure Json :=
  let req : Request := { verb := Verb.POST, url := url, body := some (urlencode postdata) }
  (req, [Event.httpIssue req], runHttp w req)

/-- The two statements  if (url_store): url_store.url = url  shared by every
operation: when the supplied store is truthy its url attribute is assigned
the constructed URL, otherwise nothing happens. Returns the store after the
statement together with the events it emitted. -/
def writeSink (url : String) (url_store : Option UrlStore) : Option UrlStore × List Event :=
  match url_store with
  | none => (none, [])
  | some st =>
    if st.truthy then (some { truthy := st.truthy, url := some url }, [Event.sinkWrite url])
    else (some st, [])

/-- Operation rate, source lines 36-55: GET on base plus /rate/ plus pair. -/
def rate (w : World) (pair : String) (url_store : Option UrlStore) : CallResult :=
  let url := shapeshift_url_base ++ "/rate/" ++ pair
  let sink := writeSink url url_store
  let g := _get_request w url
  { request := g.1, trace := sink.2 ++ g.2.1, store := sink.1, result := g.2.2 }

/-- Operation limit, source lines 58-76: GET on base plus /limit/ plus pair. -/
def limit (w : World) (pair : String) (url_store : Option UrlStore) : CallResult :=
  let url := shapeshift_url_base ++ "/limit/" ++ pair
  let sink := writeSink url url_store
  let g := _get_request w url
  { request := g.1, trace := sink.2 ++ g.2.1, store := sink.1, result := g.2.2 }

/-- Operation market_info, source lines 79-101: GET on base plus /marketinfo/
plus pair. -/
def market_info (w : World) (pair : String) (url_store : Option UrlStore) : CallResult :=
  let url := shapeshift_url_base ++ "/marketinfo/" ++ pair
  let sink := writeSink url url_store
  let g := _get_request w url
  { request := g.1, trace := sink.2 ++ g.2.1, store := sink.1, result := g.2.2 }

/-- Operation recent_tx, source lines 104-129: GET on base plus /recenttx/
plus str of max_results. -/
def recent_tx (w : World) (max_results : Int) (url_store : Option UrlStore) : CallResult :=
  let url := shapeshift_url_base ++ "/recenttx/" ++ toString max_results
  let sink := writeSink url url_store
  let g := _get_request w url
  { request := g.1, trace := sink.2 ++ g.2.1, store := sink.1, result := g.2.2 }

/-- Call of recent_tx with the max_results argument omitted: Python fills in
the declared default 5 (source line 104). -/
def recent_tx_noarg (w : World) (url_store : Option UrlStore) : CallResult :=
  recent_tx w 5 url_store

/-- Operation tx_status, source lines 132-178: GET on base plus /txStat/ plus
address. -/
def tx_status (w : World) (address : String) (url_store : Option UrlStore) : CallResult :=
  let url := shapeshift_url_base ++ "/txStat/" ++ address
  let sink := writeSink url url_store
  let g := _get_request w url
  { request := g.1, trace := sink.2 ++ g.2.1, store := sink.1, result := g.2.2 }

/-- Operation time_remaining, source lines 180-202: GET on base plus
/timeremaining/ plus address. -/
def time_remaining (w : World) (address : String) (url_store : Option UrlStore) : CallResult :=
  let url := shapeshift_url_base ++ "/timeremaining/" ++ address
  let sink := writeSink url url_store
  let g := _get_request w url
  { request := g.1, trace := sink.2 ++ g.2.1, store := sink.1, result := g.2.2 }

/-- Operation coin_list, source lines 204-230: GET on base plus /getcoins. -/
def coin_list (w : World) (url_store : Option UrlStore) : CallResult :=
  let url := shapeshift_url_base ++ "/getcoins"
  let sink := writeSink url url_store
  let g := _get_request w url
  { request := g.1, trace := sink.2 ++ g.2.1, store := sink.1, result := g.2.2 }

/-- Operation tx_by_api_key, source lines 232-262: GET on base plus
/txbyapi_key/ plus api_key. -/
def tx_by_api_key (w : World) (api_key : String) (url_store : Option UrlStore) : CallResult :=
  let url := shapeshift_url_base ++ "/txbyapi_key/" ++ api_key
  let sink := writeSink url url_store
  let g := _get_request w url
  { request := g.1, trace := sink.2 ++ g.2.1, store := sink.1, result := g.2.2 }

/-- Operation tx_by_address, source lines 264-297: GET on base plus
/txbyaddress/ plus address plus slash plus api_key. -/
def tx_by_address (w : World) (api_key : String) (address : String)
    (url_store : Option UrlStore) : CallResult :=
  let url := shapeshift_url_base ++ "/txbyaddress/" ++ address ++ "/" ++ api_key
  let sink := writeSink url url_store
  let g := _get_request w url
  { request := g.1, trace := sink.2 ++ g.2.1, store := sink.1, result := g.2.2 }

/-- Operation validate_address, source lines 299-323: GET on base plus
/validateAddress/ plus address plus slash plus coin. -/
def validate_address (w : World) (address : String) (coin : String)
    (url_store : Option UrlStore) : CallResult :=
  let url := shapeshift_url_base ++ "/validateAddress/" ++ address ++ "/" ++ coin
  let sink := writeSink url url_store
  let g := _get_request w url
  { request := g.1, trace := sink.2 ++ g.2.1, store := sink.1, result := g.2.2 }

/-- Operation shift, source lines 325-356: POST on base plus /shift with the
supplied postdata as body. -/
def shift (w : World) (postdata : List (String × String))
    (url_store : Option UrlStore) : CallResult :=
  let url := shapeshift_url_base ++ "/shift"
  let sink := writeSink url url_store
  let g := _post_request w url postdata
  { request := g.1, trace := sink.2 ++ g.2.1, store := sink.1, result := g.2.2 }

/-- Operation set_mail, source lines 358-381: POST on base plus /mail with
the supplied postdata as body. -/
def set_mail (w : World) (postdata : List (String × String))
    (url_store : Option UrlStore) : CallResult :=
  let url := shapeshift_url_base ++ "/mail"
  let sink := writeSink url url_store
  let g := _post_request w url postdata
  { request := g.1, trace := sink.2 ++ g.2.1, store := sink.1, result := g.2.2 }

/-- Operation send_amount, source lines 383-461: POST on base plus
/sendamount with the supplied postdata as body. -/
def send_amount (w : World) (postdata : List (String × String))
    (url_store : Option UrlStore) : CallResult :=
  let url := shapeshift_url_base ++ "/sendamount"
  let sink := writeSink url url_store
  let g := _post_request w url postdata
  { request := g.1, trace := sink.2 ++ g.2.1, store := sink.1, result := g.2.2 }

/-- Operation cancel_pending, source lines 463-485: POST on base plus
/cancelpending with the supplied postdata as body. -/
def cancel_pending (w : World) (postdata : List (String × String))
    (url_store : Option UrlStore) : CallResult :=
  let url := shapeshift_url_base ++ "/cancelpending"
  let sink := writeSink url url_store
  let g := _post_request w url postdata
  { request := g.1, trace := sink.2 ++ g.2.1, store := sink.1, result := g.2.2 }

/-- A Python dynamic error. nameError models evaluating an undefined name. -/
inductive PyError where
  | nameError : String → PyError
deriving DecidableEq

/-- A fresh legacy ShapeShiftIO instance (source lines 491-493): a plain
object, hence truthy, whose url attribute starts as None. -/
def ShapeShiftIO_new : UrlStore :=
  { truthy := true, url := none }

/-- Legacy method rate (source lines 495-496): forwards to the free function
with the instance itself as the url store. -/
def ShapeShiftIO_rate (w : World) (self : UrlStore) (pair : String) : CallResult :=
  rate w pair (some self)

/-- Legacy method limit (source lines 498-499). -/
def ShapeShiftIO_limit (w : World) (self : UrlStore) (pair : String) : CallResult :=
  limit w pair (some self)

/-- Legacy method market_info (source lines 501-502). -/
def ShapeShiftIO_market_info (w : World) (self : UrlStore) (pair : String) : CallResult :=
  market_info w pair (some self)

/-- Legacy method recent_tx (source lines 504-505). -/
def ShapeShiftIO_recent_tx (w : World) (self : UrlStore) (max_results : Int) : CallResult :=
  recent_tx w max_results (some self)

/-- Legacy method tx_status (source lines 507-508). -/
def ShapeShiftIO_tx_status (w : World) (self : UrlStore) (address : String) : CallResult :=
  tx_status w address (some self)

/-- Legacy method time_remaining, source lines 510-511. The source declares
it as  def time_remaining(address, url_store=None)  with no self parameter,
so a bound call binds the instance to address; the body
return time_remaining(address, self)  then evaluates the undefined name
self and raises NameError before any sink write or request happens. -/
def ShapeShiftIO_time_remaining (_self : UrlStore) (_address : String) :
    Except PyError CallResult :=
  Except.error (PyError.nameError "self")

/-- Legacy method coin_list (source lines 513-514). -/
def ShapeShiftIO_coin_list (w : World) (self : UrlStore) : CallResult :=
  coin_list w (some self)

/-- Legacy method tx_by_api_key (source lines 516-517). -/
def ShapeShiftIO_tx_by_api_key (w : World) (self : UrlStore) (api_key : String) : CallResult :=
  tx_by_api_key w api_key (some self)

/-- Legacy method tx_by_address (source lines 519-520). -/
def ShapeShiftIO_tx_by_address (w : World) (self : UrlStore) (api_key : String)
    (address : String) : CallResult :=
  tx_by_address w api_key address (some self)

/-- Legacy method validate_address (source lines 522-523). -/
def ShapeShiftIO_validate_address (w : World) (self : UrlStore) (address : String)
    (coin : String) : CallResult :=
  validate_address w address coin (some self)

/-- Legacy method shift (source lines 525-526). -/
def ShapeShiftIO_shift (w : World) (self : UrlStore)
    (postdata : List (String × String)) : CallResult :=
  shift w postdata (some self)

/-- Legacy method set_mail (source lines 528-529). -/
def ShapeShiftIO_set_mail (w : World) (self : UrlStore)
    (postdata : List (String × String)) : CallResult :=
  set_mail w postdata (some self)

/-- Legacy method send_amount (source lines 531-532). -/
def ShapeShiftIO_send_amount (w : World) (self : UrlStore)
    (postdata : List (String × String)) : CallResult :=
  send_amount w postdata (some self)

/-- Legacy method cancel_pending (source lines 534-535). -/
def ShapeShiftIO_cancel_pending (w : World) (self : UrlStore)
    (postdata : List (String × String)) : CallResult :=
  cancel_pending w postdata (some self)

/-- True exactly on the httpIssue events of a trace. -/
def isIssue : Event → Bool
  | Event.httpIssue _ => true
  | Event.sinkWrite _ => false

/-- A world whose transport never connects: every request raises URLError. -/
def worldDown : World :=
  { service := fun _ => ServiceBehavior.unreachable, decode := fun _ => none }

/-- A world answering every request with HTTP status 500. -/
def world500 : World :=
  { service := fun _ => ServiceBehavior.respond 500 "oops", decode := fun _ => none }

/-- A world answering 200 with a body the JSON decoder rejects. -/
def worldBadBody : World :=
  { service := fun _ => ServiceBehavior.respond 200 "not json", decode := fun _ => none }

/-- A world answering 200 with the documented rate body, whose decoder maps
exactly that body to the corresponding JSON object. -/
def worldRate : World :=
  { service := fun _ =>
      ServiceBehavior.respond 200 "\x7b\"pair\":\"btc_ltc\",\"rate\":\"70.1234\"\x7d",
    decode := fun b =>
      if b = "\x7b\"pair\":\"btc_ltc\",\"rate\":\"70.1234\"\x7d" then
        some (Json.obj [("pair", Json.str "btc_ltc"), ("rate", Json.str "70.1234")])
      else none }

theorem runHttp_unreachable (w : World) (req : Request)
    (h : w.service req = ServiceBehavior.unreachable) :
    runHttp w req = Except.error Failure.network := by
  simp [runHttp, h]

theorem runHttp_non2xx (w : World) (req : Request) (st : Nat) (b : String)
    (h : w.service req = ServiceBehavior.respond st b) (hn : ¬(200 ≤ st ∧ st < 300)) :
    runHttp w req = Except.error (Failure.http st) := by
  simp [runHttp, h, hn]

theorem runHttp_decode_fail (w : World) (req : Request) (st : Nat) (b : String)
    (h : w.service req = ServiceBehavior.respond st b) (h1 : 200 ≤ st) (h2 : st < 300)
    (hd : w.decode b = none) :
    runHttp w req = Except.error Failure.jsonDecode := by
  simp [runHttp, h, h1, h2, hd]

theorem runHttp_ok (w : World) (req : Request) (st : Nat) (b : String) (j : Json)
    (h : w.service req = ServiceBehavior.respond st b) (h1 : 200 ≤ st) (h2 : st < 300)
    (hd : w.decode b = some j) :
    runHttp w req = Except.ok j := by
  simp [runHttp, h, h1, h2, hd]

theorem writeSink_no_issue (url : String) (s : Option UrlStore) :
    ((writeSink url s).2).filter isIssue = [] := by
  cases s with
  | none => rfl
  | some st => cases h : st.truthy <;> simp [writeSink, isIssue, h]

theorem filter_trace_single (url : String) (s : Option UrlStore) (req : Request) :
    ((writeSink url s).2 ++ [Event.httpIssue req]).filter isIssue = [Event.httpIssue req] := by
  simp [List.filter_append, writeSink_no_issue, isIssue]

/-- Claim C1: for every operation and all caller-supplied string parameters,
the constructed URL (and for POST operations the form body) is exactly the
base plus the endpoint template with the parameters concatenated verbatim,
with no re-ordering, percent-encoding or validation; and a truthy url store
observes exactly that URL. In particular tx_by_address appends address then
api_key, and validate_address appends address then coin. -/
theorem claim_C1_url_construction :
    (∀ w p s, (rate w p s).request
        = { verb := Verb.GET, url := shapeshift_url_base ++ "/rate/" ++ p, body := none }
      ∧ ∀ u, (rate w p (some { truthy := true, url := u })).store
        = some { truthy := true, url := some (shapeshift_url_base ++ "/rate/" ++ p) })
  ∧ (∀ w p s, (limit w p s).request
        = { verb := Verb.GET, url := shapeshift_url_base ++ "/limit/" ++ p, body := none }
      ∧ ∀ u, (limit w p (some { truthy := true, url := u })).store
        = some { truthy := true, url := some (shapeshift_url_base ++ "/limit/" ++ p) })
  ∧ (∀ w p s, (market_info w p s).request
        = { verb := Verb.GET, url := shapeshift_url_base ++ "/marketinfo/" ++ p, body := none }
      ∧ ∀ u, (market_info w p (some { truthy := true, url := u })).store
        = some { truthy := true, url := some (shapeshift_url_base ++ "/marketinfo/" ++ p) })
  ∧ (∀ w (m : Int) s, (recent_tx w m s).request
        = { verb := Verb.GET, url := shapeshift_url_base ++ "/recenttx/" ++ toString m,
            body := none }
      ∧ ∀ u, (recent_tx w m (some { truthy := true, url := u })).store
        = some { truthy := true,
                 url := some (shapeshift_url_base ++ "/recenttx/" ++ toString m) })
  ∧ (∀ w a s, (tx_status w a s).request
        = { verb := Verb.GET, url := shapeshift_url_base ++ "/txStat/" ++ a, body := none }
      ∧ ∀ u, (tx_status w a (some { truthy := true, url := u })).store
        = some { truthy := true, url := some (shapeshift_url_base ++ "/txStat/" ++ a) })
  ∧ (∀ w a s, (time_remaining w a s).request
        = { verb := Verb.GET, url := shapeshift_url_base ++ "/timeremaining/" ++ a,
            body := none }
      ∧ ∀ u, (time_remaining w a (some { truthy := true, url := u })).store
        = some { truthy := true,
                 url := some (shapeshift_url_base ++ "/timeremaining/" ++ a) })
  ∧ (∀ w s, (coin_list w s).request
        = { verb := Verb.GET, url := shapeshift_url_base ++ "/getcoins", body := none }
      ∧ ∀ u, (coin_list w (some { truthy := true, url := u })).store
        = some { truthy := true, url := some (shapeshift_url_base ++ "/getcoins") })
  ∧ (∀ w k s, (tx_by_api_key w k s).request
        = { verb := Verb.GET, url := shapeshift_url_base ++ "/txbyapi_key/" ++ k, body := none }
      ∧ ∀ u, (tx_by_api_key w k (some { truthy := true, url := u })).store
        = some { truthy := true, url := some (shapeshift_url_base ++ "/txbyapi_key/" ++ k) })
  ∧ (∀ w k a s, (tx_by_address w k a s).request
        = { verb := Verb.GET,
            url := shapeshift_url_base ++ "/txbyaddress/" ++ a ++ "/" ++ k, body := none }
      ∧ ∀ u, (tx_by_address w k a (some { truthy := true, url := u })).store
        = some { truthy := true,
                 url := some (shapeshift_url_base ++ "/txbyaddress/" ++ a ++ "/" ++ k) })
  ∧ (∀ w a c s, (validate_address w a c s).request
        = { verb := Verb.GET,
            url := shapeshift_url_base ++ "/validateAddress/" ++ a ++ "/" ++ c, body := none }
      ∧ ∀ u, (validate_address w a c (some { truthy := true, url := u })).store
        = some { truthy := true,
                 url := some (shapeshift_url_base ++ "/validateAddress/" ++ a ++ "/" ++ c) })
  ∧ (∀ w pd s, (shift w pd s).request
        = { verb := Verb.POST, url := shapeshift_url_base ++ "/shift",
            body := some (urlencode pd) }
      ∧ ∀ u, (shift w pd (some { truthy := true, url := u })).store
        = some { truthy := true, url := some (shapeshift_url_base ++ "/shift") })
  ∧ (∀ w pd s, (set_mail w pd s).request
        = { verb := Verb.POST, url := shapeshift_url_base ++ "/mail",
            body := some (urlencode pd) }
      ∧ ∀ u, (set_mail w pd (some { truthy := true, url := u })).store
        = some { truthy := true, url := some (shapeshift_url_base ++ "/mail") })
  ∧ (∀ w pd s, (send_amount w pd s).request
        = { verb := Verb.POST, url := shapeshift_url_base ++ "/sendamount",
            body := some (urlencode pd) }
      ∧ ∀ u, (send_amount w pd (some { truthy := true, url := u })).store
        = some { truthy := true, url := some (shapeshift_url_base ++ "/sendamount") })
  ∧ (∀ w pd s, (cancel_pending w pd s).request
        = { verb := Verb.POST, url := shapeshift_url_base ++ "/cancelpending",
            body := some (urlencode pd) }
      ∧ ∀ u, (cancel_pending w pd (some { truthy := true, url := u })).store
        = some { truthy := true, url := some (shapeshift_url_base ++ "/cancelpending") }) :=
  ⟨fun _ _ _ => ⟨rfl, fun _ => rfl⟩, fun _ _ _ => ⟨rfl, fun _ => rfl⟩,
   fun _ _ _ => ⟨rfl, fun _ => rfl⟩, fun _ _ _ => ⟨rfl, fun _ => rfl⟩,
   fun _ _ _ => ⟨rfl, fun _ => rfl⟩, fun _ _ _ => ⟨rfl, fun _ => rfl⟩,
   fun _ _ => ⟨rfl, fun _ => rfl⟩, fun _ _ _ => ⟨rfl, fun _ => rfl⟩,
   fun _ _ _ _ => ⟨rfl, fun _ => rfl⟩, fun _ _ _ _ => ⟨rfl, fun _ => rfl⟩,
   fun _ _ _ => ⟨rfl, fun _ => rfl⟩, fun _ _ _ => ⟨rfl, fun _ => rfl⟩,
   fun _ _ _ => ⟨rfl, fun _ => rfl⟩, fun _ _ _ => ⟨rfl, fun _ => rfl⟩⟩

/-- Claim C2, evaluation at the failing input: the legacy class method
time_remaining is declared without a self parameter, so a bound call on a
fresh instance raises NameError over the undefined name self instead of
issuing the request that the free function time_remaining issues for the
same address; no request happens and the instance url is never set. -/
theorem claim_C2_time_remaining_nameerror :
    ShapeShiftIO_time_remaining ShapeShiftIO_new "1BitcoinAddress"
      = Except.error (PyError.nameError "self")
  ∧ ∀ w, (time_remaining w "1BitcoinAddress" (some ShapeShiftIO_new)).request
        = { verb := Verb.GET,
            url := shapeshift_url_base ++ "/timeremaining/1BitcoinAddress", body := none }
      ∧ (time_remaining w "1BitcoinAddress" (some ShapeShiftIO_new)).store
        = some { truthy := true,
                 url := some (shapeshift_url_base ++ "/timeremaining/1BitcoinAddress") } :=
  ⟨rfl, fun _ => ⟨rfl, rfl⟩⟩

/-- Claim C5: every POST operation sends as body exactly the urlencoded
serialization of the supplied field mapping, each supplied field present and
no field injected; in particular the two-field mapping withdrawal AAA and
pair btc_ltc encodes to exactly those two fields. -/
theorem claim_C5_post_body :
    (∀ w pd s, (shift w pd s).request.body = some (urlencode pd)
      ∧ (shift w pd s).request.verb = Verb.POST)
  ∧ (∀ w pd s, (set_mail w pd s).request.body = some (urlencode pd)
      ∧ (set_mail w pd s).request.verb = Verb.POST)
  ∧ (∀ w pd s, (send_amount w pd s).request.body = some (urlencode pd)
      ∧ (send_amount w pd s).request.verb = Verb.POST)
  ∧ (∀ w pd s, (cancel_pending w pd s).request.body = some (urlencode pd)
      ∧ (cancel_pending w pd s).request.verb = Verb.POST)
  ∧ urlencode [("withdrawal", "AAA"), ("pair", "btc_ltc")] = "withdrawal=AAA&pair=btc_ltc" :=
  ⟨fun _ _ _ => ⟨rfl, rfl⟩, fun _ _ _ => ⟨rfl, rfl⟩, fun _ _ _ => ⟨rfl, rfl⟩,
   fun _ _ _ => ⟨rfl, rfl⟩, by decide⟩

/-- Claim C6: recent_tx called with no argument defaults the path segment to
5, and any caller-supplied max value, including values outside the
service-side range 1 to 50, is substituted into the path unchanged with no
clamping. -/
theorem claim_C6_recenttx_no_clamp :
    (∀ w s, (recent_tx_noarg w s).request.url = shapeshift_url_base ++ "/recenttx/5")
  ∧ (∀ w (m : Int) s, (recent_tx w m s).request.url
      = shapeshift_url_base ++ "/recenttx/" ++ toString m)
  ∧ (∀ w s, (recent_tx w 500 s).request.url = shapeshift_url_base ++ "/recenttx/500")
  ∧ (∀ w s, (recent_tx w 0 s).request.url = shapeshift_url_base ++ "/recenttx/0") :=
  ⟨fun _ _ => rfl, fun _ _ _ => rfl, fun _ _ => rfl, fun _ _ => rfl⟩

/-- Claim C7: market_info with an empty pair argument constructs exactly the
path /marketinfo/ with a trailing slash and empty segment, the same
concatenation as for any other pair, with no special-casing of the empty
string. -/
theorem claim_C7_marketinfo_empty :
    (∀ w p s, (market_info w p s).request.url = shapeshift_url_base ++ "/marketinfo/" ++ p)
  ∧ (∀ w s, (market_info w "" s).request.url = shapeshift_url_base ++ "/marketinfo/") :=
  ⟨fun _ _ _ => rfl, fun _ _ => rfl⟩

/-- Claim C3: for every operation a network error, a non-2xx HTTP status, or
a body the JSON decoder rejects propagates to the caller as the
corresponding failure; each call issues exactly one HTTP request (no retry,
no internal recovery), its outcome being exactly what the single request
yields, so no partial or default value is ever returned on failure. -/
theorem claim_C3_error_propagation :
    (∀ w req, w.service req = ServiceBehavior.unreachable →
      runHttp w req = Except.error Failure.network)
  ∧ (∀ w req (st : Nat) b, w.service req = ServiceBehavior.respond st b →
      ¬(200 ≤ st ∧ st < 300) → runHttp w req = Except.error (Failure.http st))
  ∧ (∀ w req (st : Nat) b, w.service req = ServiceBehavior.respond st b →
      200 ≤ st → st < 300 → w.decode b = none →
      runHttp w req = Except.error Failure.jsonDecode)
  ∧ (∀ w p s, (rate w p s).result = runHttp w (rate w p s).request
      ∧ (rate w p s).trace.filter isIssue = [Event.httpIssue (rate w p s).request])
  ∧ (∀ w p s, (limit w p s).result = runHttp w (limit w p s).request
      ∧ (limit w p s).trace.filter isIssue = [Event.httpIssue (limit w p s).request])
  ∧ (∀ w p s, (market_info w p s).result = runHttp w (market_info w p s).request
      ∧ (market_info w p s).trace.filter isIssue = [Event.httpIssue (market_info w p s).request])
  ∧ (∀ w (m : Int) s, (recent_tx w m s).result = runHttp w (recent_tx w m s).request
      ∧ (recent_tx w m s).trace.filter isIssue = [Event.httpIssue (recent_tx w m s).request])
  ∧ (∀ w a s, (tx_status w a s).result = runHttp w (tx_status w a s).request
      ∧ (tx_status w a s).trace.filter isIssue = [Event.httpIssue (tx_status w a s).request])
  ∧ (∀ w a s, (time_remaining w a s).result = runHttp w (time_remaining w a s).request
      ∧ (time_remaining w a s).trace.filter isIssue
        = [Event.httpIssue (time_remaining w a s).request])
  ∧ (∀ w s, (coin_list w s).result = runHttp w (coin_list w s).request
      ∧ (coin_list w s).trace.filter isIssue = [Event.httpIssue (coin_list w s).request])
  ∧ (∀ w k s, (tx_by_api_key w k s).result = runHttp w (tx_by_api_key w k s).request
      ∧ (tx_by_api_key w k s).trace.filter isIssue
        = [Event.httpIssue (tx_by_api_key w k s).request])
  ∧ (∀ w k a s, (tx_by_address w k a s).result = runHttp w (tx_by_address w k a s).request
      ∧ (tx_by_address w k a s).trace.filter isIssue
        = [Event.httpIssue (tx_by_address w k a s).request])
  ∧ (∀ w a c s, (validate_address w a c s).result = runHttp w (validate_address w a c s).request
      ∧ (validate_address w a c s).trace.filter isIssue
        = [Event.httpIssue (validate_address w a c s).request])
  ∧ (∀ w pd s, (shift w pd s).result = runHttp w (shift w pd s).request
      ∧ (shift w pd s).trace.filter isIssue = [Event.httpIssue (shift w pd s).request])
  ∧ (∀ w pd s, (set_mail w pd s).result = runHttp w (set_mail w pd s).request
      ∧ (set_mail w pd s).trace.filter isIssue = [Event.httpIssue (set_mail w pd s).request])
  ∧ (∀ w pd s, (send_amount w pd s).result = runHttp w (send_amount w pd s).request
      ∧ (send_amount w pd s).trace.filter isIssue
        = [Event.httpIssue (send_amount w pd s).request])
  ∧ (∀ w pd s, (cancel_pending w pd s).result = runHttp w (cancel_pending w pd s).request
      ∧ (cancel_pending w pd s).trace.filter isIssue
        = [Event.httpIssue (cancel_pending w pd s).request]) :=
  ⟨fun w req h => runHttp_unreachable w req h,
   fun w req st b h hn => runHttp_non2xx w req st b h hn,
   fun w req st b h h1 h2 hd => runHttp_decode_fail w req st b h h1 h2 hd,
   fun _ _ s => ⟨rfl, filter_trace_single _ s _⟩, fun _ _ s => ⟨rfl, filter_trace_single _ s _⟩,
   fun _ _ s => ⟨rfl, filter_trace_single _ s _⟩, fun _ _ s => ⟨rfl, filter_trace_single _ s _⟩,
   fun _ _ s => ⟨rfl, filter_trace_single _ s _⟩, fun _ _ s => ⟨rfl, filter_trace_single _ s _⟩,
   fun _ s => ⟨rfl, filter_trace_single _ s _⟩, fun _ _ s => ⟨rfl, filter_trace_single _ s _⟩,
   fun _ _ _ s => ⟨rfl, filter_trace_single _ s _⟩,
   fun _ _ _ s => ⟨rfl, filter_trace_single _ s _⟩,
   fun _ _ s => ⟨rfl, filter_trace_single _ s _⟩, fun _ _ s => ⟨rfl, filter_trace_single _ s _⟩,
   fun _ _ s => ⟨rfl, filter_trace_single _ s _⟩, fun _ _ s => ⟨rfl, filter_trace_single _ s _⟩⟩

/-- Witness for claim C3: against a concrete world with an unreachable
transport the rate call raises the network failure; against a world
answering 500 it raises the HTTP failure; against a world answering 200 with
an undecodable body it raises the JSON decoding failure. -/
theorem claim_C3_error_propagation_witness :
    (rate worldDown "btc_ltc" none).result = Except.error Failure.network
  ∧ (rate world500 "btc_ltc" none).result = Except.error (Failure.http 500)
  ∧ (rate worldBadBody "btc_ltc" none).result = Except.error Failure.jsonDecode :=
  ⟨claim_C3_error_propagation.1 worldDown ((rate worldDown "btc_ltc" none).request) rfl,
   claim_C3_error_propagation.2.1 world500 ((rate world500 "btc_ltc" none).request)
     500 "oops" rfl (by decide),
   claim_C3_error_propagation.2.2.1 worldBadBody ((rate worldBadBody "btc_ltc" none).request)
     200 "not json" rfl (by decide) (by decide) rfl⟩

/-- Claim C4: for every operation, whenever the service answers a request
with a 2xx status and a body the decoder maps to a JSON value, the operation
returns exactly that decoded value unmodified; in particular a
service-reported error object is returned as ordinary successful output,
never detected or transformed. -/
theorem claim_C4_verbatim_json :
    (∀ w p s (st : Nat) b j, w.service (rate w p s).request = ServiceBehavior.respond st b →
      200 ≤ st → st < 300 → w.decode b = some j → (rate w p s).result = Except.ok j)
  ∧ (∀ w p s (st : Nat) b j, w.service (limit w p s).request = ServiceBehavior.respond st b →
      200 ≤ st → st < 300 → w.decode b = some j → (limit w p s).result = Except.ok j)
  ∧ (∀ w p s (st : Nat) b j,
      w.service (market_info w p s).request = ServiceBehavior.respond st b →
      200 ≤ st → st < 300 → w.decode b = some j → (market_info w p s).result = Except.ok j)
  ∧ (∀ w (m : Int) s (st : Nat) b j,
      w.service (recent_tx w m s).request = ServiceBehavior.respond st b →
      200 ≤ st → st < 300 → w.decode b = some j → (recent_tx w m s).result = Except.ok j)
  ∧ (∀ w a s (st : Nat) b j, w.service (tx_status w a s).request = ServiceBehavior.respond st b →
      200 ≤ st → st < 300 → w.decode b = some j → (tx_status w a s).result = Except.ok j)
  ∧ (∀ w a s (st : Nat) b j,
      w.service (time_remaining w a s).request = ServiceBehavior.respond st b →
      200 ≤ st → st < 300 → w.decode b = some j → (time_remaining w a s).result = Except.ok j)
  ∧ (∀ w s (st : Nat) b j, w.service (coin_list w s).request = ServiceBehavior.respond st b →
      200 ≤ st → st < 300 → w.decode b = some j → (coin_list w s).result = Except.ok j)
  ∧ (∀ w k s (st : Nat) b j,
      w.service (tx_by_api_key w k s).request = ServiceBehavior.respond st b →
      200 ≤ st → st < 300 → w.decode b = some j → (tx_by_api_key w k s).result = Except.ok j)
  ∧ (∀ w k a s (st : Nat) b j,
      w.service (tx_by_address w k a s).request = ServiceBehavior.respond st b →
      200 ≤ st → st < 300 → w.decode b = some j → (tx_by_address w k a s).result = Except.ok j)
  ∧ (∀ w a c s (st : Nat) b j,
      w.service (validate_address w a c s).request = ServiceBehavior.respond st b →
      200 ≤ st → st < 300 → w.decode b = some j →
      (validate_address w a c s).result = Except.ok j)
  ∧ (∀ w pd s (st : Nat) b j, w.service (shift w pd s).request = ServiceBehavior.respond st b →
      200 ≤ st → st < 300 → w.decode b = some j → (shift w pd s).result = Except.ok j)
  ∧ (∀ w pd s (st : Nat) b j,
      w.service (set_mail w pd s).request = ServiceBehavior.respond st b →
      200 ≤ st → st < 300 → w.decode b = some j → (set_mail w pd s).result = Except.ok j)
  ∧ (∀ w pd s (st : Nat) b j,
      w.service (send_amount w pd s).request = ServiceBehavior.respond st b →
      200 ≤ st → st < 300 → w.decode b = some j → (send_amount w pd s).result = Except.ok j)
  ∧ (∀ w pd s (st : Nat) b j,
      w.service (cancel_pending w pd s).request = ServiceBehavior.respond st b →
      200 ≤ st → st < 300 → w.decode b = some j →
      (cancel_pending w pd s).result = Except.ok j) :=
  ⟨fun w p s st b j h h1 h2 hd => runHttp_ok w ((rate w p s).request) st b j h h1 h2 hd,
   fun w p s st b j h h1 h2 hd => runHttp_ok w ((limit w p s).request) st b j h h1 h2 hd,
   fun w p s st b j h h1 h2 hd => runHttp_ok w ((market_info w p s).request) st b j h h1 h2 hd,
   fun w m s st b j h h1 h2 hd => runHttp_ok w ((recent_tx w m s).request) st b j h h1 h2 hd,
   fun w a s st b j h h1 h2 hd => runHttp_ok w ((tx_status w a s).request) st b j h h1 h2 hd,
   fun w a s st b j h h1 h2 hd =>
     runHttp_ok w ((time_remaining w a s).request) st b j h h1 h2 hd,
   fun w s st b j h h1 h2 hd => runHttp_ok w ((coin_list w s).request) st b j h h1 h2 hd,
   fun w k s st b j h h1 h2 hd => runHttp_ok w ((tx_by_api_key w k s).request) st b j h h1 h2 hd,
   fun w k a s st b j h h1 h2 hd =>
     runHttp_ok w ((tx_by_address w k a s).request) st b j h h1 h2 hd,
   fun w a c s st b j h h1 h2 hd =>
     runHttp_ok w ((validate_address w a c s).request) st b j h h1 h2 hd,
   fun w pd s st b j h h1 h2 hd => runHttp_ok w ((shift w pd s).request) st b j h h1 h2 hd,
   fun w pd s st b j h h1 h2 hd => runHttp_ok w ((set_mail w pd s).request) st b j h h1 h2 hd,
   fun w pd s st b j h h1 h2 hd => runHttp_ok w ((send_amount w pd s).request) st b j h h1 h2 hd,
   fun w pd s st b j h h1 h2 hd =>
     runHttp_ok w ((cancel_pending w pd s).request) st b j h h1 h2 hd⟩

/-- Witness for claim C4: against a concrete world answering 200 with the
documented rate body, whose decoder maps that body to the corresponding JSON
object, the rate call returns exactly that object. -/
theorem claim_C4_verbatim_json_witness :
    (rate worldRate "btc_ltc" none).result
      = Except.ok (Json.obj [("pair", Json.str "btc_ltc"), ("rate", Json.str "70.1234")]) :=
  claim_C4_verbatim_json.1 worldRate "btc_ltc" none 200
    "\x7b\"pair\":\"btc_ltc\",\"rate\":\"70.1234\"\x7d"
    (Json.obj [("pair", Json.str "btc_ltc"), ("rate", Json.str "70.1234")])
    rfl (by decide) (by decide) rfl

/-- Claim C8: for every operation, supplying or omitting the url store has no
effect on the request issued or on the value returned; the only mutation the
client performs on the caller-owned store is writing the constructed URL
into it, exactly the writeSink statement, and nothing read from the store
influences the call. -/
theorem claim_C8_sink_no_effect :
    (∀ w p s, (rate w p s).request = (rate w p none).request
      ∧ (rate w p s).result = (rate w p none).result
      ∧ (rate w p s).store = (writeSink (rate w p none).request.url s).1)
  ∧ (∀ w p s, (limit w p s).request = (limit w p none).request
      ∧ (limit w p s).result = (limit w p none).result
      ∧ (limit w p s).store = (writeSink (limit w p none).request.url s).1)
  ∧ (∀ w p s, (market_info w p s).request = (market_info w p none).request
      ∧ (market_info w p s).result = (market_info w p none).result
      ∧ (market_info w p s).store = (writeSink (market_info w p none).request.url s).1)
  ∧ (∀ w (m : Int) s, (recent_tx w m s).request = (recent_tx w m none).request
      ∧ (recent_tx w m s).result = (recent_tx w m none).result
      ∧ (recent_tx w m s).store = (writeSink (recent_tx w m none).request.url s).1)
  ∧ (∀ w a s, (tx_status w a s).request = (tx_status w a none).request
      ∧ (tx_status w a s).result = (tx_status w a none).result
      ∧ (tx_status w a s).store = (writeSink (tx_status w a none).request.url s).1)
  ∧ (∀ w a s, (time_remaining w a s).request = (time_remaining w a none).request
      ∧ (time_remaining w a s).result = (time_remaining w a none).result
      ∧ (time_remaining w a s).store = (writeSink (time_remaining w a none).request.url s).1)
  ∧ (∀ w s, (coin_list w s).request = (coin_list w none).request
      ∧ (coin_list w s).result = (coin_list w none).result
      ∧ (coin_list w s).store = (writeSink (coin_list w none).request.url s).1)
  ∧ (∀ w k s, (tx_by_api_key w k s).request = (tx_by_api_key w k none).request
      ∧ (tx_by_api_key w k s).result = (tx_by_api_key w k none).result
      ∧ (tx_by_api_key w k s).store = (writeSink (tx_by_api_key w k none).request.url s).1)
  ∧ (∀ w k a s, (tx_by_address w k a s).request = (tx_by_address w k a none).request
      ∧ (tx_by_address w k a s).result = (tx_by_address w k a none).result
      ∧ (tx_by_address w k a s).store
        = (writeSink (tx_by_address w k a none).request.url s).1)
  ∧ (∀ w a c s, (validate_address w a c s).request = (validate_address w a c none).request
      ∧ (validate_address w a c s).result = (validate_address w a c none).result
      ∧ (validate_address w a c s).store
        = (writeSink (validate_address w a c none).request.url s).1)
  ∧ (∀ w pd s, (shift w pd s).request = (shift w pd none).request
      ∧ (shift w pd s).result = (shift w pd none).result
      ∧ (shift w pd s).store = (writeSink (shift w pd none).request.url s).1)
  ∧ (∀ w pd s, (set_mail w pd s).request = (set_mail w pd none).request
      ∧ (set_mail w pd s).result = (set_mail w pd none).result
      ∧ (set_mail w pd s).store = (writeSink (set_mail w pd none).request.url s).1)
  ∧ (∀ w pd s, (send_amount w pd s).request = (send_amount w pd none).request
      ∧ (send_amount w pd s).result = (send_amount w pd none).result
      ∧ (send_amount w pd s).store = (writeSink (send_amount w pd none).request.url s).1)
  ∧ (∀ w pd s, (cancel_pending w pd s).request = (cancel_pending w pd none).request
      ∧ (cancel_pending w pd s).result = (cancel_pending w pd none).result
      ∧ (cancel_pending w pd s).store
        = (writeSink (cancel_pending w pd none).request.url s).1) :=
  ⟨fun _ _ _ => ⟨rfl, rfl, rfl⟩, fun _ _ _ => ⟨rfl, rfl, rfl⟩,
   fun _ _ _ => ⟨rfl, rfl, rfl⟩, fun _ _ _ => ⟨rfl, rfl, rfl⟩,
   fun _ _ _ => ⟨rfl, rfl, rfl⟩, fun _ _ _ => ⟨rfl, rfl, rfl⟩,
   fun _ _ => ⟨rfl, rfl, rfl⟩, fun _ _ _ => ⟨rfl, rfl, rfl⟩,
   fun _ _ _ _ => ⟨rfl, rfl, rfl⟩, fun _ _ _ _ => ⟨rfl, rfl, rfl⟩,
   fun _ _ _ => ⟨rfl, rfl, rfl⟩, fun _ _ _ => ⟨rfl, rfl, rfl⟩,
   fun _ _ _ => ⟨rfl, rfl, rfl⟩, fun _ _ _ => ⟨rfl, rfl, rfl⟩⟩

/-- Claim C9: for every operation given a truthy url store, the store url
attribute is assigned the constructed URL before the HTTP request is
issued — the trace is exactly the sink write followed by the single request
issue — and since the world is arbitrary, including unreachable transports
and failing services, the store holds the attempted URL after every failing
call as well: the write is never rolled back or skipped on failure. -/
theorem claim_C9_sink_written_before_request :
    (∀ w p u, (rate w p (some { truthy := true, url := u })).store
        = some { truthy := true, url := some (rate w p none).request.url }
      ∧ (rate w p (some { truthy := true, url := u })).trace
        = [Event.sinkWrite (rate w p none).request.url,
           Event.httpIssue (rate w p none).request])
  ∧ (∀ w p u, (limit w p (some { truthy := true, url := u })).store
        = some { truthy := true, url := some (limit w p none).request.url }
      ∧ (limit w p (some { truthy := true, url := u })).trace
        = [Event.sinkWrite (limit w p none).request.url,
           Event.httpIssue (limit w p none).request])
  ∧ (∀ w p u, (market_info w p (some { truthy := true, url := u })).store
        = some { truthy := true, url := some (market_info w p none).request.url }
      ∧ (market_info w p (some { truthy := true, url := u })).trace
        = [Event.sinkWrite (market_info w p none).request.url,
           Event.httpIssue (market_info w p none).request])
  ∧ (∀ w (m : Int) u, (recent_tx w m (some { truthy := true, url := u })).store
        = some { truthy := true, url := some (recent_tx w m none).request.url }
      ∧ (recent_tx w m (some { truthy := true, url := u })).trace
        = [Event.sinkWrite (recent_tx w m none).request.url,
           Event.httpIssue (recent_tx w m none).request])
  ∧ (∀ w a u, (tx_status w a (some { truthy := true, url := u })).store
        = some { truthy := true, url := some (tx_status w a none).request.url }
      ∧ (tx_status w a (some { truthy := true, url := u })).trace
        = [Event.sinkWrite (tx_status w a none).request.url,
           Event.httpIssue (tx_status w a none).request])
  ∧ (∀ w a u, (time_remaining w a (some { truthy := true, url := u })).store
        = some { truthy := true, url := some (time_remaining w a none).request.url }
      ∧ (time_remaining w a (some { truthy := true, url := u })).trace
        = [Event.sinkWrite (time_remaining w a none).request.url,
           Event.httpIssue (time_remaining w a none).request])
  ∧ (∀ w u, (coin_list w (some { truthy := true, url := u })).store
        = some { truthy := true, url := some (coin_list w none).request.url }
      ∧ (coin_list w (some { truthy := true, url := u })).trace
        = [Event.sinkWrite (coin_list w none).request.url,
           Event.httpIssue (coin_list w none).request])
  ∧ (∀ w k u, (tx_by_api_key w k (some { truthy := true, url := u })).store
        = some { truthy := true, url := some (tx_by_api_key w k none).request.url }
      ∧ (tx_by_api_key w k (some { truthy := true, url := u })).trace
        = [Event.sinkWrite (tx_by_api_key w k none).request.url,
           Event.httpIssue (tx_by_api_key w k none).request])
  ∧ (∀ w k a u, (tx_by_address w k a (some { truthy := true, url := u })).store
        = some { truthy := true, url := some (tx_by_address w k a none).request.url }
      ∧ (tx_by_address w k a (some { truthy := true, url := u })).trace
        = [Event.sinkWrite (tx_by_address w k a none).request.url,
           Event.httpIssue (tx_by_address w k a none).request])
  ∧ (∀ w a c u, (validate_address w a c (some { truthy := true, url := u })).store
        = some { truthy := true, url := some (validate_address w a c none).request.url }
      ∧ (validate_address w a c (some { truthy := true, url := u })).trace
        = [Event.sinkWrite (validate_address w a c none).request.url,
           Event.httpIssue (validate_address w a c none).request])
  ∧ (∀ w pd u, (shift w pd (some { truthy := true, url := u })).store
        = some { truthy := true, url := some (shift w pd none).request.url }
      ∧ (shift w pd (some { truthy := true, url := u })).trace
        = [Event.sinkWrite (shift w pd none).request.url,
           Event.httpIssue (shift w pd none).request])
  ∧ (∀ w pd u, (set_mail w pd (some { truthy := true, url := u })).store
        = some { truthy := true, url := some (set_mail w pd none).request.url }
      ∧ (set_mail w pd (some { truthy := true, url := u })).trace
        = [Event.sinkWrite (set_mail w pd none).request.url,
           Event.httpIssue (set_mail w pd none).request])
  ∧ (∀ w pd u, (send_amount w pd (some { truthy := true, url := u })).store
        = some { truthy := true, url := some (send_amount w pd none).request.url }
      ∧ (send_amount w pd (some { truthy := true, url := u })).trace
        = [Event.sinkWrite (send_amount w pd none).request.url,
           Event.httpIssue (send_amount w pd none).request])
  ∧ (∀ w pd u, (cancel_pending w pd (some { truthy := true, url := u })).store
        = some { truthy := true, url := some (cancel_pending w pd none).request.url }
      ∧ (cancel_pending w pd (some { truthy := true, url := u })).trace
        = [Event.sinkWrite (cancel_pending w pd none).request.url,
           Event.httpIssue (cancel_pending w pd none).request]) :=
  ⟨fun _ _ _ => ⟨rfl, rfl⟩, fun _ _ _ => ⟨rfl, rfl⟩, fun _ _ _ => ⟨rfl, rfl⟩,
   fun _ _ _ => ⟨rfl, rfl⟩, fun _ _ _ => ⟨rfl, rfl⟩, fun _ _ _ => ⟨rfl, rfl⟩,
   fun _ _ => ⟨rfl, rfl⟩, fun _ _ _ => ⟨rfl, rfl⟩, fun _ _ _ _ => ⟨rfl, rfl⟩,
   fun _ _ _ _ => ⟨rfl, rfl⟩, fun _ _ _ => ⟨rfl, rfl⟩, fun _ _ _ => ⟨rfl, rfl⟩,
   fun _ _ _ => ⟨rfl, rfl⟩, fun _ _ _ => ⟨rfl, rfl⟩⟩

/-- Claim C10: every operation gates the sink write on the truthiness of the
url_store argument, not on whether one was supplied: given a falsy store
object the request is performed normally, with the same request and result
as with no store at all, the store is left exactly as supplied, and no sink
write event occurs. -/
theorem claim_C10_falsy_sink_skipped :
    (∀ w p u, (rate w p (some { truthy := false, url := u })).store
        = some { truthy := false, url := u }
      ∧ (rate w p (some { truthy := false, url := u })).trace
        = [Event.httpIssue (rate w p none).request]
      ∧ (rate w p (some { truthy := false, url := u })).result = (rate w p none).result)
  ∧ (∀ w p u, (limit w p (some { truthy := false, url := u })).store
        = some { truthy := false, url := u }
      ∧ (limit w p (some { truthy := false, url := u })).trace
        = [Event.httpIssue (limit w p none).request]
      ∧ (limit w p (some { truthy := false, url := u })).result = (limit w p none).result)
  ∧ (∀ w p u, (market_info w p (some { truthy := false, url := u })).store
        = some { truthy := false, url := u }
      ∧ (market_info w p (some { truthy := false, url := u })).trace
        = [Event.httpIssue (market_info w p none).request]
      ∧ (market_info w p (some { truthy := false, url := u })).result
        = (market_info w p none).result)
  ∧ (∀ w (m : Int) u, (recent_tx w m (some { truthy := false, url := u })).store
        = some { truthy := false, url := u }
      ∧ (recent_tx w m (some { truthy := false, url := u })).trace
        = [Event.httpIssue (recent_tx w m none).request]
      ∧ (recent_tx w m (some { truthy := false, url := u })).result
        = (recent_tx w m none).result)
  ∧ (∀ w a u, (tx_status w a (some { truthy := false, url := u })).store
        = some { truthy := false, url := u }
      ∧ (tx_status w a (some { truthy := false, url := u })).trace
        = [Event.httpIssue (tx_status w a none).request]
      ∧ (tx_status w a (some { truthy := false, url := u })).result
        = (tx_status w a none).result)
  ∧ (∀ w a u, (time_remaining w a (some { truthy := false, url := u })).store
        = some { truthy := false, url := u }
      ∧ (time_remaining w a (some { truthy := false, url := u })).trace
        = [Event.httpIssue (time_remaining w a none).request]
      ∧ (time_remaining w a (some { truthy := false, url := u })).result
        = (time_remaining w a none).result)
  ∧ (∀ w u, (coin_list w (some { truthy := false, url := u })).store
        = some { truthy := false, url := u }
      ∧ (coin_list w (some { truthy := false, url := u })).trace
        = [Event.httpIssue (coin_list w none).request]
      ∧ (coin_list w (some { truthy := false, url := u })).result = (coin_list w none).result)
  ∧ (∀ w k u, (tx_by_api_key w k (some { truthy := false, url := u })).store
        = some { truthy := false, url := u }
      ∧ (tx_by_api_key w k (some { truthy := false, url := u })).trace
        = [Event.httpIssue (tx_by_api_key w k none).request]
      ∧ (tx_by_api_key w k (some { truthy := false, url := u })).result
        = (tx_by_api_key w k none).result)
  ∧ (∀ w k a u, (tx_by_address w k a (some { truthy := false, url := u })).store
        = some { truthy := false, url := u }
      ∧ (tx_by_address w k a (some { truthy := false, url := u })).trace
        = [Event.httpIssue (tx_by_address w k a none).request]
      ∧ (tx_by_address w k a (some { truthy := false, url := u })).result
        = (tx_by_address w k a none).result)
  ∧ (∀ w a c u, (validate_address w a c (some { truthy := false, url := u })).store
        = some { truthy := false, url := u }
      ∧ (validate_address w a c (some { truthy := false, url := u })).trace
        = [Event.httpIssue (validate_address w a c none).request]
      ∧ (validate_address w a c (some { truthy := false, url := u })).result
        = (validate_address w a c none).result)
  ∧ (∀ w pd u, (shift w pd (some { truthy := false, url := u })).store
        = some { truthy := false, url := u }
      ∧ (shift w pd (some { truthy := false, url := u })).trace
        = [Event.httpIssue (shift w pd none).request]
      ∧ (shift w pd (some { truthy := false, url := u })).result = (shift w pd none).result)
  ∧ (∀ w pd u, (set_mail w pd (some { truthy := false, url := u })).store
        = some { truthy := false, url := u }
      ∧ (set_mail w pd (some { truthy := false, url := u })).trace
        = [Event.httpIssue (set_mail w pd none).request]
      ∧ (set_mail w pd (some { truthy := false, url := u })).result
        = (set_mail w pd none).result)
  ∧ (∀ w pd u, (send_amount w pd (some { truthy := false, url := u })).store
        = some { truthy := false, url := u }
      ∧ (send_amount w pd (some { truthy := false, url := u })).trace
        = [Event.httpIssue (send_amount w pd none).request]
      ∧ (send_amount w pd (some { truthy := false, url := u })).result
        = (send_amount w pd none).result)
  ∧ (∀ w pd u, (cancel_pending w pd (some { truthy := false, url := u })).store
        = some { truthy := false, url := u }
      ∧ (cancel_pending w pd (some { truthy := false, url := u })).trace
        = [Event.httpIssue (cancel_pending w pd none).request]
      ∧ (cancel_pending w pd (some { truthy := false, url := u })).result
        = (cancel_pending w pd none).result) :=
  ⟨fun _ _ _ => ⟨rfl, rfl, rfl⟩, fun _ _ _ => ⟨rfl, rfl, rfl⟩,
   fun _ _ _ => ⟨rfl, rfl, rfl⟩, fun _ _ _ => ⟨rfl, rfl, rfl⟩,
   fun _ _ _ => ⟨rfl, rfl, rfl⟩, fun _ _ _ => ⟨rfl, rfl, rfl⟩,
   fun _ _ => ⟨rfl, rfl, rfl⟩, fun _ _ _ => ⟨rfl, rfl, rfl⟩,
   fun _ _ _ _ => ⟨rfl, rfl, rfl⟩, fun _ _ _ _ => ⟨rfl, rfl, rfl⟩,
   fun _ _ _ => ⟨rfl, rfl, rfl⟩, fun _ _ _ => ⟨rfl, rfl, rfl⟩,
   fun _ _ _ => ⟨rfl, rfl, rfl⟩, fun _ _ _ => ⟨rfl, rfl, rfl⟩⟩
